import Mathlib

/-!
Shallow embedding of the Bautagebuch Flask application (`app.py`): the data
model (Project, Entry, Photo), the statistics aggregator (`get_stats`), the
photo deletion handler (`delete_photo`), and the PDF report renderers
(`export_pdf`, `export_single_entry_pdf`).  ReportLab flowables are embedded
as an inductive `Block` type; Python floats are embedded as rationals;
the filesystem visible to the photo loop is embedded as a map from filename
to a `FileStatus`.
-/

namespace Bautagebuch

/-- A calendar date, as Python `datetime.date`. -/
structure Date where
  year : Int
  month : Nat
  day : Nat
deriving DecidableEq, Repr

/-- Days since the Unix epoch for a civil date (proleptic Gregorian),
the standard days-from-civil computation; embeds Python date subtraction:
`(a - b).days = daysFromCivil a - daysFromCivil b`. -/
def daysFromCivil (dt : Date) : Int :=
  let y : Int := if dt.month ≤ 2 then dt.year - 1 else dt.year
  let era : Int := (if 0 ≤ y then y else y - 399) / 400
  let yoe : Int := y - era * 400
  let mp : Int := (Int.ofNat dt.month + 9) % 12
  let doy : Int := (153 * mp + 2) / 5 + Int.ofNat dt.day - 1
  let doe : Int := yoe * 365 + yoe / 4 - yoe / 100 + doy
  era * 146097 + doe - 719468

/-- Python `(a - b).days` on dates. -/
def dateSubDays (a b : Date) : Int :=
  daysFromCivil a - daysFromCivil b

/-- Decimal string of a natural number, left-padded with zeros to `width`. -/
def padNat (width n : Nat) : String :=
  let s := toString n
  String.mk (List.replicate (width - s.length) (Char.ofNat 48)) ++ s

/-- Python `d.strftime(\x27%d.%m.%Y\x27)`: day and month two-digit, dot-separated. -/
def formatDate (d : Date) : String :=
  padNat 2 d.day ++ "." ++ padNat 2 d.month ++ "." ++ toString d.year

/-- Python `d.strftime(\x27%Y%m%d\x27)`: 8-digit compact date. -/
def formatDateCompact (d : Date) : String :=
  toString d.year ++ padNat 2 d.month ++ padNat 2 d.day

/-- Number of fractional decimal digits Python `repr` prints for a float
whose value is the rational `q` with a terminating decimal expansion:
the least `n ≥ 1` such that `q * 10^n` is an integer (Python always prints
at least one fractional digit for a float, e.g. `150.0`). -/
def pyFracDigits (q : ℚ) : Nat :=
  match (List.range 17).find? (fun n => (q * (10 : ℚ) ^ (n + 1)).den == 1) with
  | some n => n + 1
  | none => 17

/-- Embeds Python `f"{x}"` for a float `x` whose value is the rational `q`
with a short terminating decimal expansion (the shortest round-tripping
decimal of such a float is exactly that expansion, with at least one
fractional digit). -/
def pyFloatStr (q : ℚ) : String :=
  let sign := if q < 0 then "-" else ""
  let a := |q|
  let d := pyFracDigits a
  let scaled := (a * (10 : ℚ) ^ d).num.toNat
  sign ++ toString (scaled / 10 ^ d) ++ "." ++ padNat d (scaled % 10 ^ d)

/-- Embeds Python `f"{x:.2f}"` for a nonnegative float of value `q`.
Python rounds the binary float half-to-even; a binary float can never be an
exact tie at two decimals (that would need a factor 25 in the denominator),
so rounding half-up agrees with Python on every representable value. -/
def formatFixed2 (q : ℚ) : String :=
  let c := (q * 100 + 1 / 2).floor
  toString (c / 100) ++ "." ++ padNat 2 (c % 100).toNat

/-- Embeds Python `f"{x:.1f}"` for a nonnegative float of value `q`
(same tie remark as `formatFixed2`). -/
def formatFixed1 (q : ℚ) : String :=
  let c := (q * 10 + 1 / 2).floor
  toString (c / 10) ++ "." ++ padNat 1 (c % 10).toNat

/-- The `Project` model row (`app.py` lines 35-46). -/
structure Project where
  name : String
  builder_name : String
  start_date : Date
  status : String
  description : Option String
deriving DecidableEq, Repr

/-- The `Entry` model row (`app.py` lines 48-62); optional columns are
`Option`, floats are rationals. -/
structure Entry where
  date : Date
  weather : Option String
  temperature : Option ℚ
  content : String
  workers_count : Option Int
  materials : Option String
  work_hours : Option ℚ
  costs : Option ℚ
  notes : Option String
deriving DecidableEq, Repr

/-- The `Photo` model row (`app.py` lines 64-74). -/
structure Photo where
  filename : String
  original_filename : String
  description : Option String
  date_taken : Date
deriving DecidableEq, Repr

/-- Python truthiness of an optional string column (`None` and `""` falsy). -/
def truthyStr (o : Option String) : Bool :=
  match o with
  | none => false
  | some s => s ≠ ""

/-- Python truthiness of an optional float column (`None` and `0.0` falsy). -/
def truthyQ (o : Option ℚ) : Bool :=
  match o with
  | none => false
  | some v => v ≠ 0

/-- Python truthiness of an optional integer column (`None` and `0` falsy). -/
def truthyInt (o : Option Int) : Bool :=
  match o with
  | none => false
  | some v => v ≠ 0

/-- Python `x or 0` for an optional float: `None` (and `0.0`) become `0`. -/
def orZero (o : Option ℚ) : ℚ :=
  match o with
  | none => 0
  | some v => if v = 0 then 0 else v

/-- `sum(entry.costs or 0 for entry in entries)` (`app.py` line 444);
the SQL `sum` in `get_stats` line 294 skips `NULL` and yields the same value. -/
def totalCosts (entries : List Entry) : ℚ :=
  (entries.map (fun e => orZero e.costs)).sum

/-- `sum(entry.work_hours or 0 for entry in entries)` (`app.py` line 445). -/
def totalHours (entries : List Entry) : ℚ :=
  (entries.map (fun e => orZero e.work_hours)).sum

/-- `(date.today() - project.start_date).days + 1` (`app.py` lines 291, 443). -/
def projectDays (today start : Date) : Int :=
  dateSubDays today start + 1

/-- The JSON payload of `/api/stats` (`app.py` lines 282-306). -/
structure Stats where
  total_entries : Nat
  total_photos : Nat
  project_days : Int
  total_costs : ℚ
  total_hours : ℚ
  completion : Nat
deriving DecidableEq, Repr

/-- `get_stats` (`app.py` lines 282-306): counts, elapsed project days,
cost and hour sums with absent values contributing `0`, and the hardcoded
completion placeholder. -/
def get_stats (entries : List Entry) (photos : List Photo)
    (today start : Date) : Stats :=
  { total_entries := entries.length
    total_photos := photos.length
    project_days := projectDays today start
    total_costs := totalCosts entries
    total_hours := totalHours entries
    completion := 65 }

/-- A ReportLab flowable appended to `story` in `export_pdf` /
`export_single_entry_pdf`: paragraphs, spacers, label/value tables, the
image-plus-caption two-column table of the photo loop, and page breaks. -/
inductive Block where
  | para (text : String)
  | spacer
  | table (rows : List (List String))
  | imageTable (width height : ℚ) (caption : String)
  | pageBreak
deriving DecidableEq, Repr

/-- The entry details rows (`app.py` lines 482-493; the single-entry
renderer builds the identical rows at lines 647-657): one row per present
(truthy) optional field, in source order. -/
def entryDetailsRows (e : Entry) : List (List String) :=
  (if truthyStr e.weather then [["Wetter:", e.weather.getD ""]] else [])
  ++ (if truthyQ e.temperature then
        [["Temperatur:", pyFloatStr (e.temperature.getD 0) ++ "°C"]] else [])
  ++ (if truthyInt e.workers_count then
        [["Arbeiter:", toString (e.workers_count.getD 0)]] else [])
  ++ (if truthyQ e.work_hours then
        [["Arbeitsstunden:", pyFloatStr (e.work_hours.getD 0) ++ " h"]] else [])
  ++ (if truthyQ e.costs then
        [["Kosten:", formatFixed2 (e.costs.getD 0) ++ " €"]] else [])

/-- One loop iteration of the entries section of `export_pdf`
(`app.py` lines 474-528): subheading, optional details table, work content,
optional materials and notes, trailing spacer, and a page break after every
3rd entry when it is not the last (`(i + 1) % 3 == 0 and i < len(entries) - 1`).
`n` is the total entry count, `i` the 0-based loop index. -/
def renderEntryBlock (n i : Nat) (e : Entry) : List Block :=
  [Block.para ("Eintrag " ++ toString (i + 1) ++ ": " ++ formatDate e.date)]
  ++ (let rows := entryDetailsRows e
      if rows = [] then [] else [Block.table rows, Block.spacer])
  ++ [Block.para "<b>Arbeitsinhalt:</b>", Block.para e.content, Block.spacer]
  ++ (if truthyStr e.materials then
        [Block.para "<b>Materialien:</b>", Block.para (e.materials.getD ""),
         Block.spacer] else [])
  ++ (if truthyStr e.notes then
        [Block.para "<b>Notizen:</b>", Block.para (e.notes.getD ""),
         Block.spacer] else [])
  ++ [Block.spacer]
  ++ (if (i + 1) % 3 = 0 ∧ i < n - 1 then [Block.pageBreak] else [])

/-- The entries section of `export_pdf` (`app.py` lines 470-528). -/
def renderEntriesSection (entries : List Entry) : List Block :=
  [Block.para "Bautagebuch-Einträge", Block.spacer]
  ++ (entries.enum.map (fun p => renderEntryBlock entries.length p.1 p.2)).flatten

/-- What the photo loop sees for a filename in the upload folder:
the file is absent (`os.path.exists` false), present but unreadable
(`PIL.Image.open` or later flowable construction raises), or a readable
image of pixel size `w × h`. -/
inductive FileStatus where
  | missing
  | corrupt
  | image (w h : Nat)
deriving DecidableEq, Repr

/-- ReportLab `cm` in points: `72 / 2.54`. -/
def cmPt : ℚ := 3600 / 127

/-- The display-size computation of the photo loop (`app.py` lines 543-559):
fit pixel size `w × h` into an `8 cm × 6 cm` box preserving aspect ratio.
Returns `(pdf_width, pdf_height)`. -/
def scaleImage (w h : Nat) : ℚ × ℚ :=
  let maxWidth : ℚ := 8 * cmPt
  let maxHeight : ℚ := 6 * cmPt
  let aspect : ℚ := (w : ℚ) / (h : ℚ)
  if aspect > maxWidth / maxHeight then
    (maxWidth, maxWidth / aspect)
  else
    (maxHeight * aspect, maxHeight)

/-- The caption string of a successfully loaded photo
(`app.py` lines 565-568). -/
def photoInfoText (p : Photo) : String :=
  "<b>" ++ p.original_filename ++ "</b><br/>"
  ++ "Datum: " ++ formatDate p.date_taken ++ "<br/>"
  ++ (if truthyStr p.description then
        "Beschreibung: " ++ p.description.getD "" else "")

/-- The placeholder text built in the `except` branch of the photo loop
(`app.py` lines 590-593). -/
def photoErrorText (p : Photo) : String :=
  "<b>" ++ p.original_filename ++ "</b> (Bild konnte nicht geladen werden)<br/>"
  ++ "Datum: " ++ formatDate p.date_taken ++ "<br/>"
  ++ (if truthyStr p.description then
        "Beschreibung: " ++ p.description.getD "" else "")

/-- One loop iteration of the photo section (`app.py` lines 537-596), with
the `try`/`except` desugared.  When the file is absent the `if
os.path.exists(img_path)` guard skips the whole body — nothing is emitted,
not even the page break, whose check sits inside that guard.  When opening
the file raises, the `except` branch emits the placeholder paragraph and a
spacer.  On success the image-plus-caption table, a spacer, and the
conditional page break (`(i + 1) % 4 == 0 and i < len(photos) - 1`) are
emitted.  `fs` is the upload-folder state, `n` the photo count, `i` the
0-based loop index. -/
def renderPhotoItem (fs : String → FileStatus) (n i : Nat) (p : Photo) :
    List Block :=
  match fs p.filename with
  | FileStatus.missing => []
  | FileStatus.corrupt => [Block.para (photoErrorText p), Block.spacer]
  | FileStatus.image w h =>
      let wh := scaleImage w h
      [Block.imageTable wh.1 wh.2 (photoInfoText p), Block.spacer]
      ++ (if (i + 1) % 4 = 0 ∧ i < n - 1 then [Block.pageBreak] else [])

/-- All loop iterations of the photo section, concatenated. -/
def renderPhotoItems (fs : String → FileStatus) (photos : List Photo) :
    List Block :=
  (photos.enum.map (fun p => renderPhotoItem fs photos.length p.1 p.2)).flatten

/-- The photo section of `export_pdf` (`app.py` lines 530-596): emitted only
when at least one photo exists, opening with a forced page break and the
section heading. -/
def renderPhotosSection (fs : String → FileStatus) (photos : List Photo) :
    List Block :=
  if photos = [] then []
  else
    [Block.pageBreak, Block.para "Projektfotos", Block.spacer]
    ++ renderPhotoItems fs photos

/-- The project-information rows (`app.py` lines 420-426). -/
def projectInfoRows (project : Project) : List (List String) :=
  [["Projektname:", project.name],
   ["Bauherr:", project.builder_name],
   ["Startdatum:", formatDate project.start_date],
   ["Status:", project.status],
   ["Beschreibung:", if truthyStr project.description then
      project.description.getD "" else "Keine Beschreibung"]]

/-- The statistics rows of the full report (`app.py` lines 441-455):
counts, project days, costs to two decimals with the euro suffix, hours to
one decimal with the hour suffix. -/
def statsTableRows (entries : List Entry) (photos : List Photo)
    (today start : Date) : List (List String) :=
  [["Gesamte Einträge:", toString entries.length],
   ["Gesamte Fotos:", toString photos.length],
   ["Projekttage:", toString (projectDays today start)],
   ["Gesamtkosten:", formatFixed2 (totalCosts entries) ++ " €"],
   ["Gesamtarbeitsstunden:", formatFixed1 (totalHours entries) ++ " h"]]

/-- The whole `story` built by `export_pdf` (`app.py` lines 410-596).
Every per-photo failure is caught inside the loop, so story construction is
total: no exception escapes the photo loop and the build always completes. -/
def export_pdf_story (project : Project) (entries : List Entry)
    (photos : List Photo) (fs : String → FileStatus) (today : Date) :
    List Block :=
  [Block.para "Bautagebuch", Block.para ("Projekt: " ++ project.name),
   Block.spacer,
   Block.para "Projektinformationen", Block.table (projectInfoRows project),
   Block.spacer,
   Block.para "Projektstatistiken",
   Block.table (statsTableRows entries photos today project.start_date),
   Block.pageBreak]
  ++ renderEntriesSection entries
  ++ renderPhotosSection fs photos

/-- The suggested download filename of `export_pdf` (`app.py` line 603). -/
def export_pdf_filename (project : Project) (today : Date) : String :=
  "Bautagebuch_" ++ (project.name.replace " " "_") ++ "_"
  ++ formatDateCompact today ++ ".pdf"

/-- The `any([...])` guard and details table of `export_single_entry_pdf`
(`app.py` lines 644-669); the rows are built by the same code as in the
full report. -/
def singleEntryDetails (e : Entry) : List Block :=
  if truthyStr e.weather ∨ truthyQ e.temperature ∨ truthyInt e.workers_count
      ∨ truthyQ e.work_hours ∨ truthyQ e.costs then
    [Block.para "Details", Block.table (entryDetailsRows e), Block.spacer]
  else []

/-- The whole `story` built by `export_single_entry_pdf`
(`app.py` lines 635-685). -/
def export_single_entry_pdf_story (project : Project) (e : Entry) :
    List Block :=
  [Block.para "Bautagebuch-Eintrag",
   Block.para ("Projekt: " ++ project.name),
   Block.para ("Datum: " ++ formatDate e.date), Block.spacer]
  ++ singleEntryDetails e
  ++ [Block.para "Arbeitsinhalt", Block.para e.content, Block.spacer]
  ++ (if truthyStr e.materials then
        [Block.para "Materialien", Block.para (e.materials.getD ""),
         Block.spacer] else [])
  ++ (if truthyStr e.notes then
        [Block.para "Notizen", Block.para (e.notes.getD "")] else [])

/-- The store state visible to `delete_photo`: the photo records (with
their integer primary keys) and the set of filenames present in the upload
folder. -/
structure PhotoStore where
  photos : List (Nat × Photo)
  files : List String
deriving DecidableEq, Repr

/-- `delete_photo` (`app.py` lines 261-280): 404 when no record has the id;
otherwise remove the file when it exists (`if os.path.exists: os.remove` —
an absent file is simply skipped, no exception), delete the record, commit,
and answer with the success message. -/
def delete_photo (st : PhotoStore) (pid : Nat) :
    Except Nat (PhotoStore × String) :=
  match st.photos.find? (fun q => q.1 = pid) with
  | none => Except.error 404
  | some q =>
      Except.ok
        ({ photos := st.photos.filter (fun r => r.1 ≠ pid)
           files := st.files.filter (fun f => f ≠ q.2.filename) },
         "Foto gelöscht")

/-! Concrete records used to instantiate the theorems. -/

/-- A baseline entry with every optional column absent. -/
def entry0 : Entry :=
  { date := ⟨2024, 1, 5⟩, weather := none, temperature := none,
    content := "Fundament gegossen", workers_count := none, materials := none,
    work_hours := none, costs := none, notes := none }

/-- A photo record with the given stored filename. -/
def mkPhoto (fn : String) : Photo :=
  { filename := fn, original_filename := fn, description := none,
    date_taken := ⟨2024, 2, 1⟩ }

/-- Five photo records with distinct stored filenames. -/
def photosFive : List Photo :=
  [mkPhoto "p1.jpg", mkPhoto "p2.jpg", mkPhoto "p3.jpg", mkPhoto "p4.jpg",
   mkPhoto "p5.jpg"]

/-- An upload folder in which every file is a readable 800 × 600 image. -/
def fsAllGood : String → FileStatus := fun _ => FileStatus.image 800 600

/-- An upload folder in which the 4th photo file is absent and the others
are readable 800 × 600 images. -/
def fsMissingFourth : String → FileStatus :=
  fun f => if f = "p4.jpg" then FileStatus.missing else FileStatus.image 800 600

/-- An upload folder with no files at all. -/
def fsNone : String → FileStatus := fun _ => FileStatus.missing

/-- An upload folder in which every file exists but cannot be loaded. -/
def fsCorrupt : String → FileStatus := fun _ => FileStatus.corrupt

/-- A photo whose backing file will be missing in the scenarios of C1. -/
def photoGone : Photo :=
  { filename := "gone.jpg", original_filename := "rohbau.jpg",
    description := some "Rohbau Sued", date_taken := ⟨2024, 3, 5⟩ }

/-! Theorems. -/

/-- C7: the elapsed-project-days statistic equals the day difference
`today - start_date` plus one (inclusive count); in particular a project
started 2024-01-01 viewed on 2024-01-10 has `project_days = 10`. -/
theorem projectDays_inclusive :
    projectDays ⟨2024, 1, 10⟩ ⟨2024, 1, 1⟩ = 10
    ∧ ∀ today start : Date,
        projectDays today start = dateSubDays today start + 1 :=
  ⟨by decide, fun _ _ => rfl⟩

/-- C8: the statistics aggregator on an empty entry list returns entry
count 0, cost sum 0 and hours sum 0 rather than failing, and an entry with
absent cost (resp. absent work-hours) contributes 0 to the respective sum. -/
theorem get_stats_zero_entries :
    (∀ (photos : List Photo) (today start : Date),
        (get_stats [] photos today start).total_entries = 0
        ∧ (get_stats [] photos today start).total_costs = 0
        ∧ (get_stats [] photos today start).total_hours = 0)
    ∧ (∀ (e : Entry) (entries : List Entry), e.costs = none →
        totalCosts (e :: entries) = totalCosts entries)
    ∧ (∀ (e : Entry) (entries : List Entry), e.work_hours = none →
        totalHours (e :: entries) = totalHours entries) := by
  refine ⟨fun photos today start => ⟨rfl, rfl, rfl⟩, ?_, ?_⟩
  · intro e entries h
    simp [totalCosts, orZero, h]
  · intro e entries h
    simp [totalHours, orZero, h]

/-- Witness for C8 at the concrete entry `entry0`, whose cost and
work-hours columns are both absent. -/
theorem get_stats_zero_entries_witness :
    totalCosts (entry0 :: []) = totalCosts []
    ∧ totalHours (entry0 :: []) = totalHours [] :=
  ⟨get_stats_zero_entries.2.1 entry0 [] rfl,
   get_stats_zero_entries.2.2 entry0 [] rfl⟩

/-- C9: two entries with costs 100.5 and 49.5 give a total-costs statistic
of 150, rendered in the report statistics table as the string
"150.00 €" (two decimal places plus the currency suffix). -/
theorem total_costs_formatted :
    totalCosts [{ entry0 with costs := some (201 / 2) },
                { entry0 with costs := some (99 / 2) }] = 150
    ∧ statsTableRows
        [{ entry0 with costs := some (201 / 2) },
         { entry0 with costs := some (99 / 2) }] [] ⟨2024, 1, 10⟩ ⟨2024, 1, 1⟩
      = [["Gesamte Einträge:", "2"],
         ["Gesamte Fotos:", "0"],
         ["Projekttage:", "10"],
         ["Gesamtkosten:", "150.00 €"],
         ["Gesamtarbeitsstunden:", "0.0 h"]] := by
  constructor
  · with_unfolding_all rfl
  · with_unfolding_all rfl

/-- C5: an entry whose five optional detail fields (weather, temperature,
worker count, work-hours, cost) are all absent yields no details rows and
no details table in its rendered block; an entry whose only present
optional field is temperature 12.5 yields the one-row details table with
value "12.5°C". -/
theorem entry_details_table :
    (∀ (n i : Nat) (e : Entry),
        e.weather = none → e.temperature = none → e.workers_count = none →
        e.work_hours = none → e.costs = none →
        entryDetailsRows e = []
        ∧ ∀ rows, Block.table rows ∉ renderEntryBlock n i e)
    ∧ entryDetailsRows { entry0 with temperature := some (25 / 2) }
        = [["Temperatur:", "12.5°C"]] := by
  constructor
  · intro n i e hw ht hwc hwh hc
    have hrows : entryDetailsRows e = [] := by
      simp [entryDetailsRows, truthyStr, truthyQ, truthyInt, hw, ht, hwc,
        hwh, hc]
    refine ⟨hrows, ?_⟩
    intro rows
    simp only [renderEntryBlock, hrows]
    split_ifs <;> simp
  · with_unfolding_all rfl

/-- Witness for C5 at the concrete entry `entry0`, all of whose optional
detail fields are absent. -/
theorem entry_details_table_witness :
    entryDetailsRows entry0 = []
    ∧ ∀ rows, Block.table rows ∉ renderEntryBlock 1 0 entry0 :=
  entry_details_table.1 1 0 entry0 rfl rfl rfl rfl rfl

/-- C10: in the shared details-row construction of the full-report and
single-entry renderers, a numeric optional field equal to zero is treated
exactly like an absent one (its row is omitted), and an entry whose only
set optional fields are all zero produces no details table in the full
report and no Details section in the single-entry report. -/
theorem zero_valued_fields_omitted :
    (∀ e : Entry, entryDetailsRows { e with temperature := some 0 }
        = entryDetailsRows { e with temperature := none })
    ∧ (∀ e : Entry, entryDetailsRows { e with workers_count := some 0 }
        = entryDetailsRows { e with workers_count := none })
    ∧ (∀ e : Entry, entryDetailsRows { e with work_hours := some 0 }
        = entryDetailsRows { e with work_hours := none })
    ∧ (∀ e : Entry, entryDetailsRows { e with costs := some 0 }
        = entryDetailsRows { e with costs := none })
    ∧ (∀ (n i : Nat) (e : Entry),
        e.weather = none → e.temperature = some 0 → e.workers_count = some 0 →
        e.work_hours = some 0 → e.costs = some 0 →
        (∀ rows, Block.table rows ∉ renderEntryBlock n i e)
        ∧ singleEntryDetails e = []) := by
  refine ⟨?_, ?_, ?_, ?_, ?_⟩
  · intro e; simp [entryDetailsRows, truthyQ]
  · intro e; simp [entryDetailsRows, truthyInt]
  · intro e; simp [entryDetailsRows, truthyQ]
  · intro e; simp [entryDetailsRows, truthyQ]
  · intro n i e hw ht hwc hwh hc
    have hrows : entryDetailsRows e = [] := by
      simp [entryDetailsRows, truthyStr, truthyQ, truthyInt, hw, ht, hwc,
        hwh, hc]
    constructor
    · intro rows
      simp only [renderEntryBlock, hrows]
      split_ifs <;> simp
    · simp [singleEntryDetails, truthyStr, truthyQ, truthyInt, hw, ht, hwc,
        hwh, hc]

/-- An entry whose optional numeric fields are all set to zero. -/
def entryZeros : Entry :=
  { entry0 with
    temperature := some 0
    workers_count := some 0
    work_hours := some 0
    costs := some 0 }

/-- Witness for C10 at a concrete entry whose optional numeric fields are
all zero. -/
theorem zero_valued_fields_omitted_witness :
    (∀ rows, Block.table rows ∉ renderEntryBlock 1 0 entryZeros)
    ∧ singleEntryDetails entryZeros = [] :=
  zero_valued_fields_omitted.2.2.2.2 1 0 entryZeros rfl rfl rfl rfl rfl

/-- C3: a rendered entry block contains exactly one forced page break when
the entry is a 3rd, 6th, ... one and not the last, and none otherwise; a
7-entry list yields breaks after entries 3 and 6 only, two in the whole
section. -/
theorem entries_pagebreak_placement :
    (∀ (n i : Nat) (e : Entry),
        (renderEntryBlock n i e).count Block.pageBreak
          = (if (i + 1) % 3 = 0 ∧ i < n - 1 then 1 else 0)
        ∧ (Block.pageBreak ∈ renderEntryBlock n i e ↔
            (i + 1) % 3 = 0 ∧ i < n - 1))
    ∧ (List.range 7).map
        (fun i => (renderEntryBlock 7 i entry0).count Block.pageBreak)
        = [0, 0, 1, 0, 0, 1, 0]
    ∧ (renderEntriesSection (List.replicate 7 entry0)).count Block.pageBreak
        = 2 := by
  refine ⟨?_, by with_unfolding_all rfl, by with_unfolding_all rfl⟩
  intro n i e
  have hcount : (renderEntryBlock n i e).count Block.pageBreak
      = (if (i + 1) % 3 = 0 ∧ i < n - 1 then 1 else 0) := by
    simp only [renderEntryBlock, List.count_append]
    split_ifs <;> simp [List.count_cons]
  refine ⟨hcount, ?_⟩
  rw [← List.count_pos_iff, hcount]
  split_ifs with h <;> simp [h]

/-- C6: `delete_photo` on an existing record succeeds with the success
message, removes the record (keeping all others) and removes the backing
file (keeping all others); nothing requires the file to be present, so an
already-absent file still yields the same successful record deletion. -/
theorem delete_photo_removes_record_and_file
    (st : PhotoStore) (pid : Nat) (r : Nat × Photo)
    (hfind : st.photos.find? (fun q => q.1 = pid) = some r) :
    ∃ st2 : PhotoStore,
      delete_photo st pid = Except.ok (st2, "Foto gelöscht")
      ∧ (∀ q ∈ st2.photos, q.1 ≠ pid)
      ∧ r.2.filename ∉ st2.files
      ∧ (∀ q ∈ st.photos, q.1 ≠ pid → q ∈ st2.photos)
      ∧ (∀ f ∈ st.files, f ≠ r.2.filename → f ∈ st2.files) := by
  unfold delete_photo
  rw [hfind]
  refine ⟨_, rfl, ?_, ?_, ?_, ?_⟩
  · intro q hq
    simpa using (List.mem_filter.mp hq).2
  · intro hmem
    have hne := (List.mem_filter.mp hmem).2
    simp at hne
  · intro q hq hne
    exact List.mem_filter.mpr ⟨hq, by simpa using hne⟩
  · intro f hf hne
    exact List.mem_filter.mpr ⟨hf, by simpa using hne⟩

/-- A photo store holding one record, with an empty upload folder: the
backing file is already absent. -/
def storePhotoOnly : PhotoStore :=
  { photos := [(1, mkPhoto "a1.jpg")], files := [] }

/-- Witness for C6: deleting photo 1 from a store whose upload folder does
not contain the backing file still succeeds and removes the record. -/
theorem delete_photo_removes_record_and_file_witness :
    ∃ st2 : PhotoStore,
      delete_photo storePhotoOnly 1 = Except.ok (st2, "Foto gelöscht")
      ∧ (∀ q ∈ st2.photos, q.1 ≠ 1)
      ∧ (mkPhoto "a1.jpg").filename ∉ st2.files
      ∧ (∀ q ∈ storePhotoOnly.photos, q.1 ≠ 1 → q ∈ st2.photos)
      ∧ (∀ f ∈ storePhotoOnly.files,
          f ≠ (mkPhoto "a1.jpg").filename → f ∈ st2.files) :=
  delete_photo_removes_record_and_file storePhotoOnly 1 (1, mkPhoto "a1.jpg")
    (by with_unfolding_all rfl)

/-- C4: for positive original dimensions, the computed display size exactly
fills one dimension of the 8 cm × 6 cm bounding box (the maximum of the two
box ratios is 1) and preserves the original aspect ratio exactly. -/
theorem scaleImage_fits_box (w h : Nat) (hw : 0 < w) (hh : 0 < h) :
    max ((scaleImage w h).1 / (8 * cmPt)) ((scaleImage w h).2 / (6 * cmPt))
      = 1
    ∧ (scaleImage w h).1 / (scaleImage w h).2 = (w : ℚ) / (h : ℚ) := by
  have hwQ : (0 : ℚ) < (w : ℚ) := by exact_mod_cast hw
  have hhQ : (0 : ℚ) < (h : ℚ) := by exact_mod_cast hh
  have hA : (0 : ℚ) < (w : ℚ) / (h : ℚ) := div_pos hwQ hhQ
  have hcm : (0 : ℚ) < cmPt := by norm_num [cmPt]
  have hcm' : cmPt ≠ 0 := ne_of_gt hcm
  have h8 : (8 : ℚ) * cmPt ≠ 0 := by positivity
  have h6 : (6 : ℚ) * cmPt ≠ 0 := by positivity
  have hA' : (w : ℚ) / (h : ℚ) ≠ 0 := ne_of_gt hA
  have hbox : (8 * cmPt) / (6 * cmPt) = 4 / 3 := by
    rw [mul_div_mul_right _ _ hcm']
    norm_num
  by_cases hgt : ((w : ℚ) / (h : ℚ)) > 4 / 3
  · have hsc : scaleImage w h
        = (8 * cmPt, 8 * cmPt / ((w : ℚ) / (h : ℚ))) := by
      simp [scaleImage, hbox, hgt]
    rw [hsc]
    constructor
    · show max ((8 * cmPt) / (8 * cmPt))
          ((8 * cmPt / ((w : ℚ) / (h : ℚ))) / (6 * cmPt)) = 1
      rw [div_self h8]
      refine max_eq_left (le_of_lt ?_)
      have hstep : (8 * cmPt / ((w : ℚ) / (h : ℚ))) / (6 * cmPt)
          = (4 / 3) / ((w : ℚ) / (h : ℚ)) := by
        field_simp
        ring
      rw [hstep]
      exact (div_lt_one hA).mpr hgt
    · show (8 * cmPt) / (8 * cmPt / ((w : ℚ) / (h : ℚ)))
          = (w : ℚ) / (h : ℚ)
      exact div_div_cancel₀ h8
  · have hle : ((w : ℚ) / (h : ℚ)) ≤ 4 / 3 := not_lt.mp hgt
    have hsc : scaleImage w h
        = (6 * cmPt * ((w : ℚ) / (h : ℚ)), 6 * cmPt) := by
      simp [scaleImage, hbox, hgt]
    rw [hsc]
    constructor
    · show max ((6 * cmPt * ((w : ℚ) / (h : ℚ))) / (8 * cmPt))
          ((6 * cmPt) / (6 * cmPt)) = 1
      rw [div_self h6]
      refine max_eq_right ?_
      rw [div_le_one (by positivity)]
      have hkey : (0 : ℚ) ≤ (4 / 3 - (w : ℚ) / (h : ℚ)) * (6 * cmPt) :=
        mul_nonneg (by linarith) (by positivity)
      nlinarith [hkey]
    · show (6 * cmPt * ((w : ℚ) / (h : ℚ))) / (6 * cmPt)
          = (w : ℚ) / (h : ℚ)
      exact mul_div_cancel_left₀ _ h6

/-- Witness for C4 at the concrete 1600 × 900 image. -/
theorem scaleImage_fits_box_witness :
    max ((scaleImage 1600 900).1 / (8 * cmPt))
        ((scaleImage 1600 900).2 / (6 * cmPt)) = 1
    ∧ (scaleImage 1600 900).1 / (scaleImage 1600 900).2
        = ((1600 : Nat) : ℚ) / ((900 : Nat) : ℚ) :=
  scaleImage_fits_box 1600 900 (by decide) (by decide)


/-- Counterexample to C2 as stated: five photos, the 4th one's backing file
missing from the upload directory — the photo loop emits no page break at
all, although the claim demands exactly one (after photo 4).  The break
check sits inside the `os.path.exists` guard (`app.py` lines 541, 585), so
a skipped photo also skips its break. -/
theorem photos_pagebreak_counterexample :
    photosFive.length = 5
    ∧ (renderPhotoItems fsMissingFourth photosFive).count Block.pageBreak
        = 0 := by
  constructor
  · with_unfolding_all rfl
  · with_unfolding_all rfl

/-- C2 (amended): a photo whose file exists and loads as an image emits
exactly one page break in its loop iteration when it is a 4th, 8th, ...
photo and not the last, and none otherwise; a photo whose file is missing
or unreadable emits no page break at its position.  For five loadable
photos the section emits exactly one break, and it sits in the iteration of
photo 4. -/
theorem photos_pagebreak_placement :
    (∀ (fs : String → FileStatus) (n i : Nat) (p : Photo) (pw ph : Nat),
        fs p.filename = FileStatus.image pw ph →
        (renderPhotoItem fs n i p).count Block.pageBreak
          = (if (i + 1) % 4 = 0 ∧ i < n - 1 then 1 else 0))
    ∧ (∀ (fs : String → FileStatus) (n i : Nat) (p : Photo),
        fs p.filename = FileStatus.missing
          ∨ fs p.filename = FileStatus.corrupt →
        (renderPhotoItem fs n i p).count Block.pageBreak = 0)
    ∧ (photosFive.enum.map
        (fun q => (renderPhotoItem fsAllGood 5 q.1 q.2).count Block.pageBreak))
        = [0, 0, 0, 1, 0]
    ∧ (renderPhotoItems fsAllGood photosFive).count Block.pageBreak = 1 := by
  refine ⟨?_, ?_, by with_unfolding_all rfl, by with_unfolding_all rfl⟩
  · intro fs n i p pw ph hfs
    simp only [renderPhotoItem, hfs]
    split_ifs <;> simp [List.count_cons, List.count_append]
  · rintro fs n i p (hfs | hfs) <;> simp [renderPhotoItem, hfs]

/-- Witness for C2 (amended) at photo 4 of five loadable photos. -/
theorem photos_pagebreak_placement_witness :
    (renderPhotoItem fsAllGood 5 3 (mkPhoto "p4.jpg")).count Block.pageBreak
      = (if (3 + 1) % 4 = 0 ∧ 3 < 5 - 1 then 1 else 0) :=
  photos_pagebreak_placement.1 fsAllGood 5 3 (mkPhoto "p4.jpg") 800 600 rfl

/-- Counterexample to C1 as stated: a photo whose backing file is missing
produces no placeholder block at all — its loop iteration emits nothing,
and the photos section of a report whose only photo has a missing file
consists of just the section opener (break, heading, spacer). -/
theorem missing_photo_counterexample :
    renderPhotoItem fsNone 1 0 photoGone = []
    ∧ renderPhotosSection fsNone [photoGone]
        = [Block.pageBreak, Block.para "Projektfotos", Block.spacer] := by
  constructor
  · with_unfolding_all rfl
  · with_unfolding_all rfl

/-- C1 (amended): a photo whose backing file exists but cannot be loaded
yields the placeholder paragraph (plus a spacer) whose text contains the
original filename, the formatted date-taken and, when present, the
description; a photo whose backing file is missing is silently skipped (no
block at all).  In both cases the loop continues, mirroring the source's
`try`/`except`: story construction is a total function, so the
whole-document render completes without an error. -/
theorem photo_placeholder_on_unreadable :
    (∀ (fs : String → FileStatus) (n i : Nat) (p : Photo),
        fs p.filename = FileStatus.corrupt →
        renderPhotoItem fs n i p
          = [Block.para (photoErrorText p), Block.spacer]
        ∧ (∃ t u, photoErrorText p
            = "<b>" ++ p.original_filename ++ t
              ++ formatDate p.date_taken ++ u)
        ∧ (truthyStr p.description = true →
            ∃ v, photoErrorText p
              = v ++ ("Beschreibung: " ++ p.description.getD "")))
    ∧ (∀ (fs : String → FileStatus) (n i : Nat) (p : Photo),
        fs p.filename = FileStatus.missing →
        renderPhotoItem fs n i p = []) := by
  constructor
  · intro fs n i p hfs
    refine ⟨by simp [renderPhotoItem, hfs], ?_, ?_⟩
    · refine ⟨"</b> (Bild konnte nicht geladen werden)<br/>" ++ "Datum: ",
        "<br/>" ++ (if truthyStr p.description then
          "Beschreibung: " ++ p.description.getD "" else ""), ?_⟩
      simp [photoErrorText, String.append_assoc]
    · intro htr
      refine ⟨"<b>" ++ p.original_filename
          ++ "</b> (Bild konnte nicht geladen werden)<br/>" ++ "Datum: "
          ++ formatDate p.date_taken ++ "<br/>", ?_⟩
      simp [photoErrorText, htr, String.append_assoc]
  · intro fs n i p hfs
    simp [renderPhotoItem, hfs]

/-- Witness for C1 (amended) at the concrete photo `photoGone`: first the
unreadable-file case, then the missing-file case. -/
theorem photo_placeholder_on_unreadable_witness :
    (renderPhotoItem fsCorrupt 1 0 photoGone
        = [Block.para (photoErrorText photoGone), Block.spacer]
      ∧ (∃ t u, photoErrorText photoGone
          = "<b>" ++ photoGone.original_filename ++ t
            ++ formatDate photoGone.date_taken ++ u)
      ∧ (truthyStr photoGone.description = true →
          ∃ v, photoErrorText photoGone
            = v ++ ("Beschreibung: " ++ photoGone.description.getD "")))
    ∧ renderPhotoItem fsNone 1 0 photoGone = [] :=
  ⟨photo_placeholder_on_unreadable.1 fsCorrupt 1 0 photoGone rfl,
   photo_placeholder_on_unreadable.2 fsNone 1 0 photoGone rfl⟩

end Bautagebuch
